import Mathlib

/-!
Verification of the GlassCart QR attribution and commission pipeline.

The definitions below are a shallow embedding of the backend source
(`backend/index.js`, `backend/models.js`, with the storage schema of
`backend/seed.js`).  JavaScript request bodies are modelled with `Option`
fields; JavaScript truthiness of strings (where the empty string is falsy)
is modelled explicitly by `strTruthy`.  External HTTP calls (reverse
geocoding, weather, QR encoders) are modelled as oracles of type
`Except Unit _`, where `Except.error` stands for a thrown error or an
unparseable response.
-/

namespace GlassCart

/-- JavaScript truthiness of an optional string value: `undefined`/`null` and
the empty string are falsy. -/
def strTruthy : Option String → Bool
  | none => false
  | some s => s != ""

/-- JavaScript `x || y` on optional string values. -/
def jsOr (x y : Option String) : Option String :=
  if strTruthy x then x else y

/-- JavaScript `x1 || x2 || ... || null`: the first truthy value, else `null`. -/
def jsOrChain : List (Option String) → Option String
  | [] => none
  | x :: rest => if strTruthy x then x else jsOrChain rest

lemma strTruthy_false_iff (x : Option String) :
    strTruthy x = false ↔ (x = none ∨ x = some "") := by
  cases x with
  | none => simp [strTruthy]
  | some s =>
    simp only [strTruthy, bne_eq_false_iff_eq, Option.some.injEq]
    constructor
    · intro h; exact Or.inr h
    · rintro (h | h)
      · exact absurd h (by simp)
      · exact h

lemma strTruthy_true_of_some (s : String) (h : s ≠ "") :
    strTruthy (some s) = true := by
  simp [strTruthy, h]

lemma jsOrChain_cons_truthy (x : Option String) (rest : List (Option String))
    (h : strTruthy x = true) : jsOrChain (x :: rest) = x := by
  simp [jsOrChain, h]

-- -------- Campaigns (models.js createCampaign, seed.js schema) --------

/-- A stored campaign row (campaigns table of `seed.js`: `qr_code_identifier`
is `TEXT NOT NULL UNIQUE`). -/
structure Campaign where
  id : String
  retailer_id : String
  product_id : String
  campaign_name : String
  start_date : Option String
  end_date : Option String
  qr_code_identifier : String
  commission_percent : Option Int
  location : Option String
deriving DecidableEq

/-- Request body of `POST /campaigns` as destructured by `models.createCampaign`. -/
structure CampaignFields where
  retailer_id : Option String
  product_id : Option String
  campaign_name : Option String
  start_date : Option String
  end_date : Option String
  qr_code_identifier : Option String
  commission_percent : Option Int
  location : Option String
deriving DecidableEq

/-- The required-field loop of `createCampaign`: the first of
`retailer_id, product_id, campaign_name, qr_code_identifier` that is falsy. -/
def missingCampaignField (f : CampaignFields) : Option String :=
  if strTruthy f.retailer_id = false then some "retailer_id"
  else if strTruthy f.product_id = false then some "product_id"
  else if strTruthy f.campaign_name = false then some "campaign_name"
  else if strTruthy f.qr_code_identifier = false then some "qr_code_identifier"
  else none

/-- A Postgres error as surfaced to the catch block of `createCampaign`. -/
structure PgError where
  code : String
  constraint : String
deriving DecidableEq

/-- Substring test on character lists, used to model
`err.constraint.includes(..)`. -/
def subListOf (p : List Char) : List Char → Bool
  | [] => p.isEmpty
  | c :: rest => p.isPrefixOf (c :: rest) || subListOf p rest

/-- Model of JavaScript `s.includes(pat)`. -/
def strContainsSub (s pat : String) : Bool :=
  subListOf pat.toList s.toList

/-- The storage layer insert into the campaigns table: the unique index on
`qr_code_identifier` rejects a duplicate with error code 23505 and the
constraint name postgres generates for that column. -/
def dbInsertCampaign (db : List Campaign) (c : Campaign) :
    Except PgError (List Campaign) :=
  if db.any (fun c0 => c0.qr_code_identifier == c.qr_code_identifier) then
    Except.error { code := "23505", constraint := "campaigns_qr_code_identifier_key" }
  else
    Except.ok (db ++ [c])

/-- `models.createCampaign`: validates required fields, inserts, and translates
a duplicate-key storage error on the identifier into the domain message
`QR code identifier must be unique.`. -/
def createCampaign (db : List Campaign) (fresh : String) (f : CampaignFields) :
    Except String (List Campaign × Campaign) :=
  match missingCampaignField f with
  | some k => Except.error ("Missing required field: " ++ k)
  | none =>
    let c : Campaign :=
      { id := fresh
        retailer_id := f.retailer_id.getD ""
        product_id := f.product_id.getD ""
        campaign_name := f.campaign_name.getD ""
        start_date := f.start_date
        end_date := f.end_date
        qr_code_identifier := f.qr_code_identifier.getD ""
        commission_percent := f.commission_percent
        location := f.location }
    match dbInsertCampaign db c with
    | Except.ok db2 => Except.ok (db2, c)
    | Except.error e =>
      if e.code == "23505" && strContainsSub e.constraint "qr_code_identifier" then
        Except.error "QR code identifier must be unique."
      else
        Except.error ("Failed to create campaign: " ++ e.code)

/-- An HTTP response as far as the campaign-creation claims need it. -/
structure HttpResp where
  status : Nat
  errorMsg : Option String
deriving DecidableEq

/-- The `POST /campaigns` handler of `index.js`: 201 on success, 400 with the
thrown message on failure; the stored list is returned alongside. -/
def postCampaigns (db : List Campaign) (fresh : String) (f : CampaignFields) :
    HttpResp × List Campaign :=
  match createCampaign db fresh f with
  | Except.ok (db2, _) => ({ status := 201, errorMsg := none }, db2)
  | Except.error m => ({ status := 400, errorMsg := some m }, db)

/-- Any sequence of campaign-creation requests (each with its generated uuid),
run against an initially empty campaigns table. -/
def runCampaignOps (ops : List (String × CampaignFields)) : List Campaign :=
  ops.foldl (fun db op => (postCampaigns db op.1 op.2).2) []

lemma dbInsertCampaign_ok_not_mem (db : List Campaign) (c : Campaign)
    (db2 : List Campaign) (h : dbInsertCampaign db c = Except.ok db2) :
    db2 = db ++ [c] ∧
      ∀ c0 ∈ db, c0.qr_code_identifier ≠ c.qr_code_identifier := by
  unfold dbInsertCampaign at h
  by_cases hany : db.any (fun c0 => c0.qr_code_identifier == c.qr_code_identifier) = true
  · simp [hany] at h
  · simp [hany] at h
    refine ⟨h.symm, ?_⟩
    intro c0 hc0 heq
    exact hany (List.any_eq_true.mpr ⟨c0, hc0, by simp [heq]⟩)

lemma postCampaigns_preserves_ident_nodup (db : List Campaign) (fresh : String)
    (f : CampaignFields)
    (h : (db.map (fun c => c.qr_code_identifier)).Nodup) :
    (((postCampaigns db fresh f).2).map (fun c => c.qr_code_identifier)).Nodup := by
  unfold postCampaigns createCampaign
  cases hm : missingCampaignField f with
  | some k => simpa using h
  | none =>
    simp only
    set c : Campaign :=
      { id := fresh
        retailer_id := f.retailer_id.getD ""
        product_id := f.product_id.getD ""
        campaign_name := f.campaign_name.getD ""
        start_date := f.start_date
        end_date := f.end_date
        qr_code_identifier := f.qr_code_identifier.getD ""
        commission_percent := f.commission_percent
        location := f.location } with hc
    cases hins : dbInsertCampaign db c with
    | ok db2 =>
      obtain ⟨hdb2, hnot⟩ := dbInsertCampaign_ok_not_mem db c db2 hins
      subst hdb2
      simp only [List.map_append, List.map_cons, List.map_nil]
      rw [List.nodup_append]
      refine ⟨h, List.nodup_singleton _, ?_⟩
      intro a ha hb
      simp only [List.mem_singleton] at hb
      subst hb
      obtain ⟨c0, hc0, hcid⟩ := List.mem_map.mp ha
      exact hnot c0 hc0 hcid
    | error e =>
      by_cases hE : (e.code == "23505" && strContainsSub e.constraint "qr_code_identifier") = true
      · simp [hE]; exact h
      · simp [hE]; exact h

lemma runCampaignOps_aux (ops : List (String × CampaignFields))
    (db : List Campaign)
    (h : (db.map (fun c => c.qr_code_identifier)).Nodup) :
    ((ops.foldl (fun db op => (postCampaigns db op.1 op.2).2) db).map
      (fun c => c.qr_code_identifier)).Nodup := by
  induction ops generalizing db with
  | nil => simpa using h
  | cons op rest ih =>
    simp only [List.foldl_cons]
    exact ih _ (postCampaigns_preserves_ident_nodup db op.1 op.2 h)

/-- C3: a campaign-creation request reusing an existing `qr_code_identifier`
fails with 400 and the domain-specific message `QR code identifier must be
unique.` (not a raw storage error), and leaves the stored campaigns unchanged;
and over any sequence of creation requests from an empty store, two distinct
stored campaigns never share a code identifier. -/
theorem campaign_identifier_unique_conflict :
    (∀ (db : List Campaign) (fresh : String) (f : CampaignFields)
      (c0 : Campaign) (i : String),
      missingCampaignField f = none →
      f.qr_code_identifier = some i →
      c0 ∈ db → c0.qr_code_identifier = i →
      postCampaigns db fresh f =
        ({ status := 400, errorMsg := some "QR code identifier must be unique." }, db)) ∧
    (∀ (ops : List (String × CampaignFields)) (c1 c2 : Campaign),
      c1 ∈ runCampaignOps ops → c2 ∈ runCampaignOps ops → c1 ≠ c2 →
      c1.qr_code_identifier ≠ c2.qr_code_identifier) := by
  constructor
  · intro db fresh f c0 i hval hident hmem heq
    unfold postCampaigns createCampaign
    rw [hval]
    simp only
    have hany : db.any (fun x => x.qr_code_identifier ==
        (f.qr_code_identifier.getD "")) = true := by
      refine List.any_eq_true.mpr ⟨c0, hmem, ?_⟩
      simp [hident, heq]
    unfold dbInsertCampaign
    rw [hany]
    have hcs : strContainsSub "campaigns_qr_code_identifier_key"
        "qr_code_identifier" = true := by decide
    simp [hcs]
  · intro ops c1 c2 h1 h2 hne
    have hnd : ((runCampaignOps ops).map (fun c => c.qr_code_identifier)).Nodup :=
      runCampaignOps_aux ops [] (by simp)
    intro heq
    exact hne (List.inj_on_of_nodup_map hnd h1 h2 heq)

/-- Witness for C3 at a concrete store: the duplicate request is rejected with
the domain message and the store is unchanged. -/
theorem campaign_identifier_unique_conflict_witness :
    postCampaigns
      [{ id := "c1", retailer_id := "r1", product_id := "p1",
         campaign_name := "First", start_date := none, end_date := none,
         qr_code_identifier := "summer2025", commission_percent := some 10,
         location := none }] "c2"
      { retailer_id := some "r1", product_id := some "p2",
        campaign_name := some "Second", start_date := none, end_date := none,
        qr_code_identifier := some "summer2025", commission_percent := some 5,
        location := none } =
      ({ status := 400, errorMsg := some "QR code identifier must be unique." },
        [{ id := "c1", retailer_id := "r1", product_id := "p1",
           campaign_name := "First", start_date := none, end_date := none,
           qr_code_identifier := "summer2025", commission_percent := some 10,
           location := none }]) := by
  exact campaign_identifier_unique_conflict.1 _ "c2" _
    { id := "c1", retailer_id := "r1", product_id := "p1",
      campaign_name := "First", start_date := none, end_date := none,
      qr_code_identifier := "summer2025", commission_percent := some 10,
      location := none } "summer2025" (by decide) rfl (by simp) rfl

-- -------- Scan ingestion (index.js POST /analytics/scan, models.js createScan) --------

/-- A JSON value sent for `coords.lat` / `coords.lon`: either a number or some
other (string) value, so that `typeof x === 'number'` is expressible. -/
inductive JsNum where
  | num (q : ℚ)
  | str (s : String)
deriving DecidableEq

/-- The `coords` object of the request body; each component may be absent. -/
structure Coords where
  lat : Option JsNum
  lon : Option JsNum
deriving DecidableEq

/-- The structured weather snapshot stored on a scan (the object built by the
handler, or supplied by the client). -/
structure WeatherObj where
  temp : Option ℚ
  feels_like : Option ℚ
  humidity : Option ℚ
  wind_speed : Option ℚ
  condition : Option String
  description : Option String
deriving DecidableEq

/-- The parsed OpenWeatherMap response body (`main`, `wind` and `weather[0]`
fields, each possibly missing). -/
structure WeatherData where
  main_temp : Option ℚ
  main_feels_like : Option ℚ
  main_humidity : Option ℚ
  wind_speed : Option ℚ
  weather_main : Option String
  weather_description : Option String
deriving DecidableEq

/-- Result of the weather fetch when no error was thrown: the HTTP `ok` flag
and the parsed body. -/
structure WeatherFetch where
  ok : Bool
  data : WeatherData
deriving DecidableEq

/-- The `address` object of a Nominatim reverse-geocode response. -/
structure GeoAddress where
  city : Option String
  town : Option String
  village : Option String
  suburb : Option String
  neighbourhood : Option String
  state : Option String
  region : Option String
deriving DecidableEq

/-- A parsed Nominatim response: the handler only looks at `.address`. -/
structure GeoJson where
  address : Option GeoAddress
deriving DecidableEq

/-- The request body of `POST /analytics/scan` as destructured by the handler. -/
structure ScanBody where
  campaign_id : Option String
  scanned_at : Option String
  coords : Option Coords
  city : Option String
  suburb : Option String
  region : Option String
  weather : Option WeatherObj
  distance_to_store_m : Option Int
  nearest_poi : Option String
  distance_to_poi_m : Option Int
  user_agent : Option String
deriving DecidableEq

/-- A stored scan row as inserted by `models.createScan` (the four fields not
passed by this endpoint default to null). -/
structure ScanRecord where
  campaign_id : String
  scanned_at : String
  lat : ℚ
  lon : ℚ
  city : Option String
  suburb : Option String
  region : Option String
  weather : Option WeatherObj
  distance_to_store_m : Option Int
  nearest_poi : Option String
  distance_to_poi_m : Option Int
  user_agent : Option String
  converted_order_id : Option String
  device_type : Option String
  referrer : Option String
  scan_source : Option String
deriving DecidableEq

/-- `models.createScan` for the argument set passed by `POST /analytics/scan`:
`converted_order_id`, `device_type`, `referrer` and `scan_source` take their
declared `null` defaults. -/
def createScan (campaign_id scanned_at : String) (lat lon : ℚ)
    (city suburb region : Option String) (weather : Option WeatherObj)
    (distance_to_store_m : Option Int) (nearest_poi : Option String)
    (distance_to_poi_m : Option Int) (user_agent : Option String) : ScanRecord :=
  { campaign_id := campaign_id, scanned_at := scanned_at, lat := lat, lon := lon
    city := city, suburb := suburb, region := region, weather := weather
    distance_to_store_m := distance_to_store_m, nearest_poi := nearest_poi
    distance_to_poi_m := distance_to_poi_m, user_agent := user_agent
    converted_order_id := none, device_type := none, referrer := none
    scan_source := none }

/-- Observable steps of the scan-ingestion handler, in order: external lookups
performed, then the insert. -/
inductive ScanEffect where
  | geoLookup
  | weatherLookup
  | persist (s : ScanRecord)
deriving DecidableEq

/-- The handler's HTTP outcome. -/
inductive ScanResp where
  | badRequest (msg : String)
  | created (s : ScanRecord)
deriving DecidableEq

/-- The weather object the handler builds from a successful lookup
(`weatherData.main?.temp` and friends). -/
def buildWeather (d : WeatherData) : WeatherObj :=
  { temp := d.main_temp, feels_like := d.main_feels_like
    humidity := d.main_humidity, wind_speed := d.wind_speed
    condition := d.weather_main, description := d.weather_description }

/-- `typeof x === 'number'` on an optional JSON value. -/
def isJsNumber : Option JsNum → Bool
  | some (JsNum.num _) => true
  | _ => false

/-- The reverse-geocode step: skipped when city, suburb and region are all
truthy; otherwise one lookup whose thrown error or address-less body leaves the
client values alone, and whose address fills only falsy fields
(`city = city || address.city || address.town || address.village || null`). -/
def geoEnrich (b : ScanBody) (geo : Except Unit GeoJson) :
    (Option String × Option String × Option String) × List ScanEffect :=
  if strTruthy b.city && strTruthy b.suburb && strTruthy b.region then
    ((b.city, b.suburb, b.region), [])
  else
    match geo with
    | Except.error _ => ((b.city, b.suburb, b.region), [ScanEffect.geoLookup])
    | Except.ok g =>
      match g.address with
      | none => ((b.city, b.suburb, b.region), [ScanEffect.geoLookup])
      | some a =>
        ((jsOrChain [b.city, a.city, a.town, a.village],
          jsOrChain [b.suburb, a.suburb, a.neighbourhood],
          jsOrChain [b.region, a.state, a.region]), [ScanEffect.geoLookup])

/-- The weather step: guarded by `!weather && coords.lat && coords.lon`, so a
latitude or longitude equal to 0 (falsy) skips the lookup entirely; a thrown
error or a non-ok response leaves the client value alone. -/
def weatherEnrich (b : ScanBody) (la lo : ℚ) (wea : Except Unit WeatherFetch) :
    Option WeatherObj × List ScanEffect :=
  if b.weather.isNone && !(la == 0) && !(lo == 0) then
    match wea with
    | Except.error _ => (b.weather, [ScanEffect.weatherLookup])
    | Except.ok w =>
      if w.ok then (some (buildWeather w.data), [ScanEffect.weatherLookup])
      else (b.weather, [ScanEffect.weatherLookup])
  else (b.weather, [])

/-- The row handed to `models.createScan` by the handler after enrichment. -/
def scanOut (b : ScanBody) (reqUA : Option String) (la lo : ℚ)
    (geo : Except Unit GeoJson) (wea : Except Unit WeatherFetch) : ScanRecord :=
  createScan (b.campaign_id.getD "") (b.scanned_at.getD "") la lo
    (geoEnrich b geo).1.1 (geoEnrich b geo).1.2.1 (geoEnrich b geo).1.2.2
    (weatherEnrich b la lo wea).1
    b.distance_to_store_m b.nearest_poi b.distance_to_poi_m
    (jsOr b.user_agent reqUA)

/-- The enrichment and persist phase of `POST /analytics/scan`, reached once
validation has extracted numeric coordinates. -/
def scanPipeline (b : ScanBody) (reqUA : Option String) (la lo : ℚ)
    (geo : Except Unit GeoJson) (wea : Except Unit WeatherFetch) :
    ScanResp × List ScanEffect :=
  let s := scanOut b reqUA la lo geo wea
  (ScanResp.created s,
    (geoEnrich b geo).2 ++ (weatherEnrich b la lo wea).2 ++ [ScanEffect.persist s])

/-- The `POST /analytics/scan` handler: the validation guard
`!campaign_id || !scanned_at || !coords || typeof coords.lat !== 'number' ||
typeof coords.lon !== 'number'` returns 400 before any lookup or insert. -/
def postAnalyticsScan (b : ScanBody) (reqUA : Option String)
    (geo : Except Unit GeoJson) (wea : Except Unit WeatherFetch) :
    ScanResp × List ScanEffect :=
  match b.coords with
  | none => (ScanResp.badRequest "Missing required scan data", [])
  | some c =>
    match c.lat, c.lon with
    | some (JsNum.num la), some (JsNum.num lo) =>
      if strTruthy b.campaign_id && strTruthy b.scanned_at then
        scanPipeline b reqUA la lo geo wea
      else (ScanResp.badRequest "Missing required scan data", [])
    | _, _ => (ScanResp.badRequest "Missing required scan data", [])

-- -------- Lemmas about the scan handler --------

lemma isJsNumber_true_iff (x : Option JsNum) :
    isJsNumber x = true ↔ ∃ q, x = some (JsNum.num q) := by
  cases x with
  | none => simp [isJsNumber]
  | some j =>
    cases j with
    | num q => simp [isJsNumber]
    | str s => simp [isJsNumber]

/-- The shape a body must have for the validation guard to pass. -/
def scanValidShape (b : ScanBody) : Prop :=
  strTruthy b.campaign_id = true ∧ strTruthy b.scanned_at = true ∧
  ∃ c, b.coords = some c ∧ isJsNumber c.lat = true ∧ isJsNumber c.lon = true

lemma postAnalyticsScan_valid (b : ScanBody) (reqUA : Option String)
    (geo : Except Unit GeoJson) (wea : Except Unit WeatherFetch)
    (c : Coords) (la lo : ℚ)
    (hc : b.coords = some c) (hla : c.lat = some (JsNum.num la))
    (hlo : c.lon = some (JsNum.num lo))
    (h1 : strTruthy b.campaign_id = true) (h2 : strTruthy b.scanned_at = true) :
    postAnalyticsScan b reqUA geo wea = scanPipeline b reqUA la lo geo wea := by
  unfold postAnalyticsScan
  rw [hc]
  dsimp only
  rw [hla, hlo]
  dsimp only
  simp [h1, h2]

lemma postAnalyticsScan_reject (b : ScanBody) (reqUA : Option String)
    (geo : Except Unit GeoJson) (wea : Except Unit WeatherFetch)
    (h : ¬ scanValidShape b) :
    postAnalyticsScan b reqUA geo wea =
      (ScanResp.badRequest "Missing required scan data", []) := by
  unfold postAnalyticsScan
  cases hc : b.coords with
  | none => rfl
  | some c =>
    dsimp only
    cases hla : c.lat with
    | none => cases hlo : c.lon <;> rfl
    | some jl =>
      cases jl with
      | str s => cases hlo : c.lon <;> rfl
      | num la =>
        cases hlo : c.lon with
        | none => rfl
        | some jo =>
          cases jo with
          | str s => rfl
          | num lo =>
            dsimp only
            by_cases h1 : strTruthy b.campaign_id = true
            · by_cases h2 : strTruthy b.scanned_at = true
              · exact absurd ⟨h1, h2, c, hc,
                  by simp [hla, isJsNumber], by simp [hlo, isJsNumber]⟩ h
              · simp [h1, Bool.eq_false_iff.mpr h2]
            · simp [Bool.eq_false_iff.mpr h1]

lemma geoEnrich_fst_error (b : ScanBody) :
    (geoEnrich b (Except.error ())).1 = (b.city, b.suburb, b.region) := by
  unfold geoEnrich
  split <;> rfl

lemma geoEnrich_fst_addressless (b : ScanBody) (g : GeoJson)
    (hg : g.address = none) :
    (geoEnrich b (Except.ok g)).1 = (b.city, b.suburb, b.region) := by
  unfold geoEnrich
  split
  · rfl
  · dsimp only
    rw [hg]

lemma geoEnrich_city_truthy (b : ScanBody) (geo : Except Unit GeoJson)
    (h : strTruthy b.city = true) : (geoEnrich b geo).1.1 = b.city := by
  unfold geoEnrich
  split
  · rfl
  · cases geo with
    | error e => rfl
    | ok g =>
      dsimp only
      cases hg : g.address with
      | none => rfl
      | some a => simp [jsOrChain, h]

lemma geoEnrich_suburb_truthy (b : ScanBody) (geo : Except Unit GeoJson)
    (h : strTruthy b.suburb = true) : (geoEnrich b geo).1.2.1 = b.suburb := by
  unfold geoEnrich
  split
  · rfl
  · cases geo with
    | error e => rfl
    | ok g =>
      dsimp only
      cases hg : g.address with
      | none => rfl
      | some a => simp [jsOrChain, h]

lemma geoEnrich_region_truthy (b : ScanBody) (geo : Except Unit GeoJson)
    (h : strTruthy b.region = true) : (geoEnrich b geo).1.2.2 = b.region := by
  unfold geoEnrich
  split
  · rfl
  · cases geo with
    | error e => rfl
    | ok g =>
      dsimp only
      cases hg : g.address with
      | none => rfl
      | some a => simp [jsOrChain, h]

lemma geoEnrich_skip (b : ScanBody) (geo : Except Unit GeoJson)
    (h : (strTruthy b.city && strTruthy b.suburb && strTruthy b.region) = true) :
    geoEnrich b geo = ((b.city, b.suburb, b.region), []) := by
  unfold geoEnrich
  simp [h]

lemma geoEnrich_fx_city_falsy (b : ScanBody) (geo : Except Unit GeoJson)
    (h : strTruthy b.city = false) :
    (geoEnrich b geo).2 = [ScanEffect.geoLookup] := by
  unfold geoEnrich
  rw [h]
  simp only [Bool.false_and, Bool.false_eq_true, if_false]
  cases geo with
  | error e => rfl
  | ok g =>
    dsimp only
    cases hg : g.address with
    | none => rfl
    | some a => rfl

lemma geoEnrich_fx_sub (b : ScanBody) (geo : Except Unit GeoJson) :
    (geoEnrich b geo).2 = [] ∨ (geoEnrich b geo).2 = [ScanEffect.geoLookup] := by
  unfold geoEnrich
  split
  · exact Or.inl rfl
  · cases geo with
    | error e => exact Or.inr rfl
    | ok g =>
      dsimp only
      cases hg : g.address with
      | none => exact Or.inr rfl
      | some a => exact Or.inr rfl

lemma weatherEnrich_supplied (b : ScanBody) (la lo : ℚ)
    (wea : Except Unit WeatherFetch) (h : b.weather.isSome = true) :
    weatherEnrich b la lo wea = (b.weather, []) := by
  unfold weatherEnrich
  have hnone : b.weather.isNone = false := by
    cases hb : b.weather <;> simp_all
  simp [hnone]

lemma weatherEnrich_zero (b : ScanBody) (la lo : ℚ)
    (wea : Except Unit WeatherFetch) (h : la = 0 ∨ lo = 0) :
    weatherEnrich b la lo wea = (b.weather, []) := by
  unfold weatherEnrich
  rcases h with h | h <;> subst h <;> simp

lemma weatherEnrich_fst_error (b : ScanBody) (la lo : ℚ) :
    (weatherEnrich b la lo (Except.error ())).1 = b.weather := by
  unfold weatherEnrich
  split <;> rfl

lemma weatherEnrich_fst_not_ok (b : ScanBody) (la lo : ℚ) (w : WeatherFetch)
    (h : w.ok = false) :
    (weatherEnrich b la lo (Except.ok w)).1 = b.weather := by
  unfold weatherEnrich
  split
  · simp [h]
  · rfl

lemma weatherEnrich_fx_sub (b : ScanBody) (la lo : ℚ)
    (wea : Except Unit WeatherFetch) :
    (weatherEnrich b la lo wea).2 = [] ∨
      (weatherEnrich b la lo wea).2 = [ScanEffect.weatherLookup] := by
  unfold weatherEnrich
  split
  · cases wea with
    | error e => exact Or.inr rfl
    | ok w =>
      by_cases hw : w.ok = true
      · simp [hw]
      · simp [Bool.eq_false_iff.mpr hw]
  · exact Or.inl rfl

lemma scanOut_city (b : ScanBody) (reqUA : Option String) (la lo : ℚ)
    (geo : Except Unit GeoJson) (wea : Except Unit WeatherFetch) :
    (scanOut b reqUA la lo geo wea).city = (geoEnrich b geo).1.1 := rfl

lemma scanOut_suburb (b : ScanBody) (reqUA : Option String) (la lo : ℚ)
    (geo : Except Unit GeoJson) (wea : Except Unit WeatherFetch) :
    (scanOut b reqUA la lo geo wea).suburb = (geoEnrich b geo).1.2.1 := rfl

lemma scanOut_region (b : ScanBody) (reqUA : Option String) (la lo : ℚ)
    (geo : Except Unit GeoJson) (wea : Except Unit WeatherFetch) :
    (scanOut b reqUA la lo geo wea).region = (geoEnrich b geo).1.2.2 := rfl

lemma scanOut_weather (b : ScanBody) (reqUA : Option String) (la lo : ℚ)
    (geo : Except Unit GeoJson) (wea : Except Unit WeatherFetch) :
    (scanOut b reqUA la lo geo wea).weather = (weatherEnrich b la lo wea).1 := rfl

lemma scanPipeline_pair (b : ScanBody) (reqUA : Option String) (la lo : ℚ)
    (geo : Except Unit GeoJson) (wea : Except Unit WeatherFetch) :
    scanPipeline b reqUA la lo geo wea =
      (ScanResp.created (scanOut b reqUA la lo geo wea),
        (geoEnrich b geo).2 ++ (weatherEnrich b la lo wea).2 ++
          [ScanEffect.persist (scanOut b reqUA la lo geo wea)]) := rfl

-- -------- C5: exact characterisation of the validation guard --------

/-- The rejected set as the amended claim states it: the campaign reference or
timestamp is absent or empty, the coordinate pair is absent, or either
coordinate is absent or non-numeric. -/
def scanRequestRejected (b : ScanBody) : Prop :=
  b.campaign_id = none ∨ b.campaign_id = some "" ∨
  b.scanned_at = none ∨ b.scanned_at = some "" ∨
  b.coords = none ∨
  (∃ c, b.coords = some c ∧
    (isJsNumber c.lat = false ∨ isJsNumber c.lon = false))

lemma scanRequestRejected_iff (b : ScanBody) :
    scanRequestRejected b ↔ ¬ scanValidShape b := by
  unfold scanRequestRejected scanValidShape
  constructor
  · rintro (h | h | h | h | h | ⟨c, hc, hn⟩) ⟨h1, h2, c2, hc2, hn1, hn2⟩
    · rw [h] at h1; simp [strTruthy] at h1
    · rw [h] at h1; simp [strTruthy] at h1
    · rw [h] at h2; simp [strTruthy] at h2
    · rw [h] at h2; simp [strTruthy] at h2
    · rw [h] at hc2; exact Option.noConfusion hc2
    · rw [hc] at hc2
      obtain rfl := Option.some.inj hc2
      rcases hn with hn | hn
      · rw [hn1] at hn; exact Bool.noConfusion hn
      · rw [hn2] at hn; exact Bool.noConfusion hn
  · intro h
    by_cases h1 : strTruthy b.campaign_id = true
    · by_cases h2 : strTruthy b.scanned_at = true
      · cases hc : b.coords with
        | none => exact Or.inr (Or.inr (Or.inr (Or.inr (Or.inl rfl))))
        | some c =>
          by_cases hn1 : isJsNumber c.lat = true
          · by_cases hn2 : isJsNumber c.lon = true
            · exact absurd ⟨h1, h2, c, hc, hn1, hn2⟩ h
            · exact Or.inr (Or.inr (Or.inr (Or.inr (Or.inr
                ⟨c, rfl, Or.inr (Bool.eq_false_iff.mpr hn2)⟩))))
          · exact Or.inr (Or.inr (Or.inr (Or.inr (Or.inr
              ⟨c, rfl, Or.inl (Bool.eq_false_iff.mpr hn1)⟩))))
      · rcases (strTruthy_false_iff b.scanned_at).mp
          (Bool.eq_false_iff.mpr h2) with h | h
        · exact Or.inr (Or.inr (Or.inl h))
        · exact Or.inr (Or.inr (Or.inr (Or.inl h)))
    · rcases (strTruthy_false_iff b.campaign_id).mp
        (Bool.eq_false_iff.mpr h1) with h | h
      · exact Or.inl h
      · exact Or.inr (Or.inl h)

/-- C5 (amended): scan ingestion returns 400 exactly for the bodies whose
campaign reference or timestamp is absent or empty (JavaScript falsiness),
whose coordinate pair is absent, or where either coordinate is absent or
non-numeric; every rejected request performs no external lookup and no
persist. -/
theorem scan_validation_exact :
    ∀ (b : ScanBody) (reqUA : Option String) (geo : Except Unit GeoJson)
      (wea : Except Unit WeatherFetch),
      ((postAnalyticsScan b reqUA geo wea).1 =
          ScanResp.badRequest "Missing required scan data" ↔
        scanRequestRejected b) ∧
      (scanRequestRejected b → (postAnalyticsScan b reqUA geo wea).2 = []) := by
  intro b reqUA geo wea
  by_cases hv : scanValidShape b
  · have hnr : ¬ scanRequestRejected b :=
      fun hr => (scanRequestRejected_iff b).mp hr hv
    obtain ⟨h1, h2, c, hc, hn1, hn2⟩ := hv
    obtain ⟨la, hla⟩ := (isJsNumber_true_iff c.lat).mp hn1
    obtain ⟨lo, hlo⟩ := (isJsNumber_true_iff c.lon).mp hn2
    rw [postAnalyticsScan_valid b reqUA geo wea c la lo hc hla hlo h1 h2,
      scanPipeline_pair]
    exact ⟨iff_of_false (by simp) hnr, fun hr => absurd hr hnr⟩
  · rw [postAnalyticsScan_reject b reqUA geo wea hv]
    exact ⟨iff_of_true rfl ((scanRequestRejected_iff b).mpr hv), fun _ => rfl⟩

/-- A coordinate object with both components present and numeric. -/
def coordsOk : Coords :=
  { lat := some (JsNum.num (-41)), lon := some (JsNum.num 174) }

/-- A body in which every required field is present, with an empty-string
campaign reference. -/
def scanBodyEmptyCampaign : ScanBody :=
  { campaign_id := some "", scanned_at := some "2025-05-10T18:30:00Z",
    coords := some coordsOk, city := none, suburb := none, region := none,
    weather := none, distance_to_store_m := none, nearest_poi := none,
    distance_to_poi_m := none, user_agent := none }

/-- C5 counterexample: a body in which every required field is present (the
campaign reference is the empty string, the timestamp present, both
coordinates present and numeric) is nevertheless rejected with 400, so the
rejected set is not exactly the bodies with an absent required field. -/
theorem scan_validation_rejects_fully_present_body :
    (postAnalyticsScan scanBodyEmptyCampaign none (Except.error ())
        (Except.error ())).1 =
      ScanResp.badRequest "Missing required scan data" ∧
    scanBodyEmptyCampaign.campaign_id = some "" ∧
    scanBodyEmptyCampaign.scanned_at = some "2025-05-10T18:30:00Z" ∧
    scanBodyEmptyCampaign.coords = some coordsOk ∧
    isJsNumber coordsOk.lat = true ∧ isJsNumber coordsOk.lon = true := by
  exact ⟨by decide, rfl, rfl, rfl, by decide, by decide⟩

/-- A body whose timestamp is absent. -/
def scanBodyNoTimestamp : ScanBody :=
  { campaign_id := some "camp1", scanned_at := none, coords := some coordsOk,
    city := none, suburb := none, region := none, weather := none,
    distance_to_store_m := none, nearest_poi := none, distance_to_poi_m := none,
    user_agent := none }

/-- Witness for C5 at a concrete rejected body: a missing timestamp means no
lookup and no persist happen. -/
theorem scan_validation_exact_witness :
    (postAnalyticsScan scanBodyNoTimestamp none (Except.error ())
        (Except.error ())).2 = [] :=
  (scan_validation_exact scanBodyNoTimestamp none (Except.error ())
    (Except.error ())).2 (Or.inr (Or.inr (Or.inl rfl)))

-- -------- C6: enrichment only fills gaps --------

/-- C6 (amended): enrichment only fills gaps, where a gap is an absent or
empty-string field: every non-empty client-supplied city/suburb/region value
and every client-supplied weather object are carried into the persisted record
unchanged, and when all three place names are supplied non-empty no
reverse-geocode lookup is performed at all. -/
theorem scan_enrichment_preserves_truthy_client_values :
    ∀ (b : ScanBody) (reqUA : Option String) (geo : Except Unit GeoJson)
      (wea : Except Unit WeatherFetch) (s : ScanRecord),
      (postAnalyticsScan b reqUA geo wea).1 = ScanResp.created s →
      (strTruthy b.city = true → s.city = b.city) ∧
      (strTruthy b.suburb = true → s.suburb = b.suburb) ∧
      (strTruthy b.region = true → s.region = b.region) ∧
      (b.weather.isSome = true → s.weather = b.weather) ∧
      ((strTruthy b.city && strTruthy b.suburb && strTruthy b.region) = true →
        ScanEffect.geoLookup ∉ (postAnalyticsScan b reqUA geo wea).2) := by
  intro b reqUA geo wea s hs
  by_cases hv : scanValidShape b
  case neg =>
    rw [postAnalyticsScan_reject b reqUA geo wea hv] at hs
    exact absurd hs (by simp)
  case pos =>
    obtain ⟨h1, h2, c, hc, hn1, hn2⟩ := hv
    obtain ⟨la, hla⟩ := (isJsNumber_true_iff c.lat).mp hn1
    obtain ⟨lo, hlo⟩ := (isJsNumber_true_iff c.lon).mp hn2
    have heq := postAnalyticsScan_valid b reqUA geo wea c la lo hc hla hlo h1 h2
    rw [heq, scanPipeline_pair] at hs
    simp only at hs
    injection hs with hrec
    subst hrec
    refine ⟨?_, ?_, ?_, ?_, ?_⟩
    · intro ht
      rw [scanOut_city, geoEnrich_city_truthy b geo ht]
    · intro ht
      rw [scanOut_suburb, geoEnrich_suburb_truthy b geo ht]
    · intro ht
      rw [scanOut_region, geoEnrich_region_truthy b geo ht]
    · intro ht
      rw [scanOut_weather, weatherEnrich_supplied b la lo wea ht]
    · intro ht
      rw [heq, scanPipeline_pair]
      rw [geoEnrich_skip b geo ht]
      rcases weatherEnrich_fx_sub b la lo wea with hw | hw <;> rw [hw] <;> simp

/-- A body supplying `city = ""`, a non-empty suburb and region, and no
weather. -/
def scanBodyEmptyCity : ScanBody :=
  { campaign_id := some "camp1", scanned_at := some "2025-05-10T18:30:00Z",
    coords := some coordsOk, city := some "", suburb := some "Te Aro",
    region := some "Wellington", weather := none, distance_to_store_m := none,
    nearest_poi := none, distance_to_poi_m := none, user_agent := none }

/-- A reverse-geocode response resolving to Wellington. -/
def geoWellington : GeoJson :=
  { address := some
      { city := some "Wellington", town := none, village := none,
        suburb := none, neighbourhood := none, state := none, region := none } }

/-- Projection of the handler outcome used to state counterexamples. -/
def respScanCity : ScanResp → Option (Option String)
  | ScanResp.created s => some s.city
  | ScanResp.badRequest _ => none

/-- C6 counterexample: the client supplies `city = ""` (a value, in JSON
terms); the reverse-geocode result overwrites it with `Wellington`, so a
client-supplied value for `city` is not always the one persisted. -/
theorem scan_enrichment_overwrites_empty_city :
    scanBodyEmptyCity.city = some "" ∧
    respScanCity (postAnalyticsScan scanBodyEmptyCity none
        (Except.ok geoWellington) (Except.error ())).1 =
      some (some "Wellington") := by
  exact ⟨rfl, by decide⟩

/-- A body supplying non-empty city, suburb, region and a weather object. -/
def scanBodySupplied : ScanBody :=
  { campaign_id := some "camp1", scanned_at := some "2025-05-10T18:30:00Z",
    coords := some coordsOk, city := some "Wellington", suburb := some "Te Aro",
    region := some "Wellington",
    weather := some
      { temp := some 12, feels_like := none, humidity := none,
        wind_speed := none, condition := some "Cloudy", description := none },
    distance_to_store_m := none, nearest_poi := none, distance_to_poi_m := none,
    user_agent := none }

/-- Witness for C6 at a concrete body: a non-empty client city survives
enrichment unchanged. -/
theorem scan_enrichment_preserves_truthy_client_values_witness :
    (scanOut scanBodySupplied none (-41) 174 (Except.ok geoWellington)
        (Except.error ())).city = scanBodySupplied.city :=
  (scan_enrichment_preserves_truthy_client_values scanBodySupplied none
      (Except.ok geoWellington) (Except.error ())
      (scanOut scanBodySupplied none (-41) 174 (Except.ok geoWellington)
        (Except.error ())) rfl).1 (by decide)

-- -------- C4: ingestion is never blocked by enrichment --------

/-- C4: once validation passes, ingestion returns 201 with a persisted scan
record regardless of what the enrichment oracles do; a thrown reverse-geocode
or weather error, an address-less geocode body, or a non-ok weather response
leaves the corresponding fields exactly as the client supplied them. -/
theorem scan_ingestion_always_persists :
    ∀ (b : ScanBody) (reqUA : Option String) (geo : Except Unit GeoJson)
      (wea : Except Unit WeatherFetch) (c : Coords) (la lo : ℚ),
      b.coords = some c → c.lat = some (JsNum.num la) →
      c.lon = some (JsNum.num lo) →
      strTruthy b.campaign_id = true → strTruthy b.scanned_at = true →
      ∃ s, (postAnalyticsScan b reqUA geo wea).1 = ScanResp.created s ∧
        ScanEffect.persist s ∈ (postAnalyticsScan b reqUA geo wea).2 ∧
        (geo = Except.error () →
          s.city = b.city ∧ s.suburb = b.suburb ∧ s.region = b.region) ∧
        (∀ g, geo = Except.ok g → g.address = none →
          s.city = b.city ∧ s.suburb = b.suburb ∧ s.region = b.region) ∧
        (wea = Except.error () → s.weather = b.weather) ∧
        (∀ w, wea = Except.ok w → w.ok = false → s.weather = b.weather) := by
  intro b reqUA geo wea c la lo hc hla hlo h1 h2
  rw [postAnalyticsScan_valid b reqUA geo wea c la lo hc hla hlo h1 h2,
    scanPipeline_pair]
  refine ⟨scanOut b reqUA la lo geo wea, rfl, by simp, ?_, ?_, ?_, ?_⟩
  · intro hg
    subst hg
    refine ⟨?_, ?_, ?_⟩
    · rw [scanOut_city, geoEnrich_fst_error]
    · rw [scanOut_suburb, geoEnrich_fst_error]
    · rw [scanOut_region, geoEnrich_fst_error]
  · intro g hg hga
    subst hg
    refine ⟨?_, ?_, ?_⟩
    · rw [scanOut_city, geoEnrich_fst_addressless b g hga]
    · rw [scanOut_suburb, geoEnrich_fst_addressless b g hga]
    · rw [scanOut_region, geoEnrich_fst_addressless b g hga]
  · intro hw
    subst hw
    rw [scanOut_weather, weatherEnrich_fst_error]
  · intro w hw hok
    subst hw
    rw [scanOut_weather, weatherEnrich_fst_not_ok b la lo w hok]

/-- A validated body supplying no place names and no weather. -/
def scanBodyBare : ScanBody :=
  { campaign_id := some "camp1", scanned_at := some "2025-05-10T18:30:00Z",
    coords := some coordsOk, city := none, suburb := none, region := none,
    weather := none, distance_to_store_m := none, nearest_poi := none,
    distance_to_poi_m := none, user_agent := none }

/-- Witness for C4 at a concrete body with both lookups throwing: the scan is
still created, with the enrichment fields left unset. -/
theorem scan_ingestion_always_persists_witness :
    ∃ s, (postAnalyticsScan scanBodyBare none (Except.error ())
        (Except.error ())).1 = ScanResp.created s ∧
      s.city = none ∧ s.weather = none := by
  obtain ⟨s, hcreated, -, herr, -, hwerr, -⟩ :=
    scan_ingestion_always_persists scanBodyBare none (Except.error ())
      (Except.error ()) coordsOk (-41) 174 rfl rfl rfl (by decide) (by decide)
  exact ⟨s, hcreated, ((herr rfl).1).trans rfl, (hwerr rfl).trans rfl⟩

-- -------- C9: weather lookup skipped on a zero coordinate --------

/-- C9: with validation passed, no client-supplied weather and a latitude or
longitude exactly 0, the weather lookup is skipped entirely (0 is falsy in the
guard `coords.lat && coords.lon`) and the scan persists with weather unset,
even though such coordinates pass validation and (with a missing city) still
trigger the reverse-geocode lookup. -/
theorem scan_weather_skipped_on_zero_coordinate :
    ∀ (b : ScanBody) (reqUA : Option String) (geo : Except Unit GeoJson)
      (wea : Except Unit WeatherFetch) (c : Coords) (la lo : ℚ),
      b.coords = some c → c.lat = some (JsNum.num la) →
      c.lon = some (JsNum.num lo) →
      strTruthy b.campaign_id = true → strTruthy b.scanned_at = true →
      b.weather = none → (la = 0 ∨ lo = 0) → strTruthy b.city = false →
      (∃ s, (postAnalyticsScan b reqUA geo wea).1 = ScanResp.created s ∧
        s.weather = none) ∧
      ScanEffect.weatherLookup ∉ (postAnalyticsScan b reqUA geo wea).2 ∧
      ScanEffect.geoLookup ∈ (postAnalyticsScan b reqUA geo wea).2 := by
  intro b reqUA geo wea c la lo hc hla hlo h1 h2 hw hzero hcity
  rw [postAnalyticsScan_valid b reqUA geo wea c la lo hc hla hlo h1 h2,
    scanPipeline_pair]
  have hwe := weatherEnrich_zero b la lo wea hzero
  have hgeo := geoEnrich_fx_city_falsy b geo hcity
  refine ⟨⟨scanOut b reqUA la lo geo wea, rfl, ?_⟩, ?_, ?_⟩
  · rw [scanOut_weather, hwe]
    exact hw
  · rw [hwe, hgeo]
    simp
  · rw [hwe, hgeo]
    simp

/-- A validated body with latitude exactly 0, no weather and no city. -/
def scanBodyZeroLat : ScanBody :=
  { campaign_id := some "camp1", scanned_at := some "2025-05-10T18:30:00Z",
    coords := some { lat := some (JsNum.num 0), lon := some (JsNum.num 174) },
    city := none, suburb := none, region := none, weather := none,
    distance_to_store_m := none, nearest_poi := none, distance_to_poi_m := none,
    user_agent := none }

/-- Witness for C9 at a concrete body with latitude 0: the weather lookup is
not attempted while the geocode lookup is. -/
theorem scan_weather_skipped_on_zero_coordinate_witness :
    ScanEffect.weatherLookup ∉
      (postAnalyticsScan scanBodyZeroLat none (Except.error ())
        (Except.error ())).2 ∧
    ScanEffect.geoLookup ∈
      (postAnalyticsScan scanBodyZeroLat none (Except.error ())
        (Except.error ())).2 :=
  (scan_weather_skipped_on_zero_coordinate scanBodyZeroLat none
    (Except.error ()) (Except.error ())
    { lat := some (JsNum.num 0), lon := some (JsNum.num 174) } 0 174
    rfl rfl rfl (by decide) (by decide) rfl (Or.inl rfl) (by decide)).2

-- -------- C2: conversion pointer (attribution matcher) --------

/-- A stored scan as the attribution matcher sees it: only the conversion
pointer matters. -/
structure ScanConv where
  id : String
  converted_order_id : Option String
deriving DecidableEq

/-- Outcome of one attempt to attribute an order to a scan. -/
inductive ConvOutcome where
  | updated
  | noop
  | conflict
deriving DecidableEq

/-- Modelled from the spec: no code under `src/` ever sets a stored scan's
`converted_order_id` after creation — the attribution matcher of spec section
4.4 is missing from the repository source (the scans schema declares the
column and `createScan` only defaults it to null).  This definition follows
the spec's words: the matcher records the order's identity onto the scan's
conversion field exactly once; a second attempt with a different order
identifier is a conflict that leaves the scan unchanged, and a repeat with the
same order identifier is a no-op. -/
def setScanConversion (s : ScanConv) (oid : String) : ConvOutcome × ScanConv :=
  match s.converted_order_id with
  | none => (ConvOutcome.updated, { s with converted_order_id := some oid })
  | some o =>
    if o = oid then (ConvOutcome.noop, s) else (ConvOutcome.conflict, s)

/-- A lifetime of attribution attempts against one scan. -/
def applyConversions (s : ScanConv) : List String → ScanConv
  | [] => s
  | o :: rest => applyConversions (setScanConversion s o).2 rest

lemma applyConversions_converted (s : ScanConv) (o : String)
    (attempts : List String) (h : s.converted_order_id = some o) :
    (applyConversions s attempts).converted_order_id = some o := by
  induction attempts generalizing s with
  | nil => exact h
  | cons a rest ih =>
    have hstep : (setScanConversion s a).2 = s := by
      unfold setScanConversion
      rw [h]
      dsimp only
      by_cases hao : o = a
      · simp [hao]
      · simp [hao]
    show (applyConversions (setScanConversion s a).2 rest).converted_order_id =
      some o
    rw [hstep]
    exact ih s h

/-- C2: the conversion pointer is set at most once over a scan's lifetime:
setting it on an unconverted scan records the order identity; once set, a
different order identifier is rejected as a conflict leaving the scan
unchanged, the same order identifier is a successful no-op, and no sequence of
further attempts ever changes the recorded pointer. -/
theorem scan_conversion_set_at_most_once :
    ∀ (s : ScanConv) (o o2 : String) (attempts : List String),
      (s.converted_order_id = none →
        setScanConversion s o =
          (ConvOutcome.updated, { s with converted_order_id := some o })) ∧
      (s.converted_order_id = some o → o2 ≠ o →
        setScanConversion s o2 = (ConvOutcome.conflict, s)) ∧
      (s.converted_order_id = some o →
        setScanConversion s o = (ConvOutcome.noop, s)) ∧
      (s.converted_order_id = some o →
        (applyConversions s attempts).converted_order_id = some o) := by
  intro s o o2 attempts
  refine ⟨?_, ?_, ?_, fun h => applyConversions_converted s o attempts h⟩
  · intro h
    unfold setScanConversion
    rw [h]
  · intro h hne
    unfold setScanConversion
    rw [h]
    dsimp only
    rw [if_neg (fun he => hne he.symm)]
  · intro h
    unfold setScanConversion
    rw [h]
    dsimp only
    rw [if_pos rfl]

/-- Witness for C2 at a concrete converted scan: a different order is a
conflict and repeated attempts never move the pointer. -/
theorem scan_conversion_set_at_most_once_witness :
    setScanConversion { id := "scan1", converted_order_id := some "order1" }
        "order2" =
      (ConvOutcome.conflict,
        { id := "scan1", converted_order_id := some "order1" }) ∧
    (applyConversions { id := "scan1", converted_order_id := some "order1" }
        ["order2", "order1", "order3"]).converted_order_id = some "order1" := by
  have h := scan_conversion_set_at_most_once
    { id := "scan1", converted_order_id := some "order1" } "order1" "order2"
    ["order2", "order1", "order3"]
  exact ⟨h.2.1 rfl (by decide), h.2.2.2 rfl⟩

-- -------- C8: per-campaign summary (models.js getScanSummaryByCampaign) ----

/-- A row of the scans table (seed.js schema), with timestamps on an integer
time axis. -/
structure ScanRow where
  campaign_id : String
  scanned_at : Int
  lat : ℚ
  lon : ℚ
  city : Option String
  suburb : Option String
  region : Option String
  weather : Option WeatherObj
  distance_to_store_m : Option Int
  nearest_poi : Option String
  distance_to_poi_m : Option Int
  user_agent : Option String
  converted_order_id : Option String
  device_type : Option String
  referrer : Option String
  scan_source : Option String
deriving DecidableEq

/-- One element of the `geo_points` array built by the summary query. -/
structure GeoPoint where
  lat : ℚ
  lon : ℚ
  city : Option String
  suburb : Option String
  region : Option String
deriving DecidableEq

/-- SQL `MIN` over a column. -/
def listMinI : List Int → Option Int
  | [] => none
  | x :: rest =>
    match listMinI rest with
    | none => some x
    | some m => some (min x m)

/-- SQL `MAX` over a column. -/
def listMaxI : List Int → Option Int
  | [] => none
  | x :: rest =>
    match listMaxI rest with
    | none => some x
    | some m => some (max x m)

/-- SQL `AVG` over a column of non-null rationals. -/
def ratAvg (l : List ℚ) : Option ℚ :=
  if l.isEmpty then none else some (l.sum / (l.length : ℚ))

/-- The single aggregate row returned by the summary query. -/
structure ScanSummary where
  scan_count : Nat
  conversions : Nat
  first_scan : Option Int
  last_scan : Option Int
  cities : List (Option String)
  regions : List (Option String)
  avg_lat : Option ℚ
  avg_lon : Option ℚ
  geo_points : List GeoPoint
  device_types : List (Option String)
  scan_sources : List (Option String)
  referrers : List (Option String)
  avg_temp : Option ℚ
  weather_conditions : List (Option String)
deriving DecidableEq

/-- The `WHERE campaign_id = $1` clause. -/
def scansOf (db : List ScanRow) (cid : String) : List ScanRow :=
  db.filter (fun s => s.campaign_id == cid)

/-- `models.getScanSummaryByCampaign`: the aggregate SELECT over the scans of
one campaign.  `COUNT(converted_order_id)` counts non-null pointers;
`ARRAY_AGG(DISTINCT col)` deduplicates; `AVG((weather->>'temp')::float)`
averages the temperatures of the scans that carry one. -/
def getScanSummaryByCampaign (db : List ScanRow) (cid : String) : ScanSummary :=
  let rows := scansOf db cid
  { scan_count := rows.length
    conversions := rows.countP (fun s => s.converted_order_id.isSome)
    first_scan := listMinI (rows.map (fun s => s.scanned_at))
    last_scan := listMaxI (rows.map (fun s => s.scanned_at))
    cities := (rows.map (fun s => s.city)).dedup
    regions := (rows.map (fun s => s.region)).dedup
    avg_lat := ratAvg (rows.map (fun s => s.lat))
    avg_lon := ratAvg (rows.map (fun s => s.lon))
    geo_points := rows.map (fun s =>
      { lat := s.lat, lon := s.lon, city := s.city, suburb := s.suburb,
        region := s.region })
    device_types := (rows.map (fun s => s.device_type)).dedup
    scan_sources := (rows.map (fun s => s.scan_source)).dedup
    referrers := (rows.map (fun s => s.referrer)).dedup
    avg_temp := ratAvg (rows.filterMap (fun s => s.weather.bind (fun w => w.temp)))
    weather_conditions :=
      (rows.map (fun s => s.weather.bind (fun w => w.condition))).dedup }

lemma listMinI_eq_none_iff (l : List Int) : listMinI l = none ↔ l = [] := by
  cases l with
  | nil => simp [listMinI]
  | cons x t =>
    simp only [listMinI]
    cases h : listMinI t <;> simp

lemma listMinI_mem (l : List Int) (m : Int) (h : listMinI l = some m) :
    m ∈ l := by
  induction l generalizing m with
  | nil => simp [listMinI] at h
  | cons x t ih =>
    simp only [listMinI] at h
    cases ht : listMinI t with
    | none =>
      rw [ht] at h
      obtain rfl := Option.some.inj h
      exact List.mem_cons_self x t
    | some m2 =>
      rw [ht] at h
      obtain rfl := Option.some.inj h
      rcases le_total x m2 with hle | hle
      · rw [min_eq_left hle]; exact List.mem_cons_self x t
      · rw [min_eq_right hle]; exact List.mem_cons_of_mem _ (ih m2 ht)

lemma listMinI_le (l : List Int) (m : Int) (h : listMinI l = some m) :
    ∀ x ∈ l, m ≤ x := by
  induction l generalizing m with
  | nil => intro x hx; simp at hx
  | cons y t ih =>
    intro x hx
    simp only [listMinI] at h
    cases ht : listMinI t with
    | none =>
      rw [ht] at h
      obtain rfl := Option.some.inj h
      have hte : t = [] := (listMinI_eq_none_iff t).mp ht
      subst hte
      simp only [List.mem_singleton] at hx
      subst hx
      exact le_refl _
    | some m2 =>
      rw [ht] at h
      obtain rfl := Option.some.inj h
      rcases List.mem_cons.mp hx with rfl | hx2
      · exact min_le_left _ _
      · exact le_trans (min_le_right _ _) (ih m2 ht x hx2)

lemma listMaxI_eq_none_iff (l : List Int) : listMaxI l = none ↔ l = [] := by
  cases l with
  | nil => simp [listMaxI]
  | cons x t =>
    simp only [listMaxI]
    cases h : listMaxI t <;> simp

lemma listMaxI_mem (l : List Int) (m : Int) (h : listMaxI l = some m) :
    m ∈ l := by
  induction l generalizing m with
  | nil => simp [listMaxI] at h
  | cons x t ih =>
    simp only [listMaxI] at h
    cases ht : listMaxI t with
    | none =>
      rw [ht] at h
      obtain rfl := Option.some.inj h
      exact List.mem_cons_self x t
    | some m2 =>
      rw [ht] at h
      obtain rfl := Option.some.inj h
      rcases le_total x m2 with hle | hle
      · rw [max_eq_right hle]; exact List.mem_cons_of_mem _ (ih m2 ht)
      · rw [max_eq_left hle]; exact List.mem_cons_self x t

lemma listMaxI_ge (l : List Int) (m : Int) (h : listMaxI l = some m) :
    ∀ x ∈ l, x ≤ m := by
  induction l generalizing m with
  | nil => intro x hx; simp at hx
  | cons y t ih =>
    intro x hx
    simp only [listMaxI] at h
    cases ht : listMaxI t with
    | none =>
      rw [ht] at h
      obtain rfl := Option.some.inj h
      have hte : t = [] := (listMaxI_eq_none_iff t).mp ht
      subst hte
      simp only [List.mem_singleton] at hx
      subst hx
      exact le_refl _
    | some m2 =>
      rw [ht] at h
      obtain rfl := Option.some.inj h
      rcases List.mem_cons.mp hx with rfl | hx2
      · exact le_max_left _ _
      · exact le_trans (ih m2 ht x hx2) (le_max_right _ _)

/-- C8: the per-campaign summary query returns one aggregate object: scan
count, conversion count as the number of the campaign's scans with a non-null
conversion pointer (0, not an error, when there are none), first and last scan
timestamps, the distinct cities, regions, device types, scan sources,
referrers and weather conditions seen, the geo-point list, and the mean
ambient temperature over the scans carrying one. -/
theorem scan_summary_by_campaign_reports_aggregates :
    ∀ (db : List ScanRow) (cid : String),
      (getScanSummaryByCampaign db cid).scan_count = (scansOf db cid).length ∧
      (getScanSummaryByCampaign db cid).conversions =
        ((scansOf db cid).filter (fun s => s.converted_order_id ≠ none)).length ∧
      ((∀ s ∈ scansOf db cid, s.converted_order_id = none) →
        (getScanSummaryByCampaign db cid).conversions = 0) ∧
      (∀ v, v ∈ (getScanSummaryByCampaign db cid).cities ↔
        ∃ s ∈ scansOf db cid, s.city = v) ∧
      (getScanSummaryByCampaign db cid).cities.Nodup ∧
      (∀ v, v ∈ (getScanSummaryByCampaign db cid).regions ↔
        ∃ s ∈ scansOf db cid, s.region = v) ∧
      (getScanSummaryByCampaign db cid).regions.Nodup ∧
      (∀ v, v ∈ (getScanSummaryByCampaign db cid).device_types ↔
        ∃ s ∈ scansOf db cid, s.device_type = v) ∧
      (getScanSummaryByCampaign db cid).device_types.Nodup ∧
      (∀ v, v ∈ (getScanSummaryByCampaign db cid).scan_sources ↔
        ∃ s ∈ scansOf db cid, s.scan_source = v) ∧
      (getScanSummaryByCampaign db cid).scan_sources.Nodup ∧
      (∀ v, v ∈ (getScanSummaryByCampaign db cid).referrers ↔
        ∃ s ∈ scansOf db cid, s.referrer = v) ∧
      (getScanSummaryByCampaign db cid).referrers.Nodup ∧
      (∀ v, v ∈ (getScanSummaryByCampaign db cid).weather_conditions ↔
        ∃ s ∈ scansOf db cid, s.weather.bind (fun w => w.condition) = v) ∧
      ((getScanSummaryByCampaign db cid).first_scan = none ↔
        scansOf db cid = []) ∧
      (∀ m, (getScanSummaryByCampaign db cid).first_scan = some m →
        (∃ s ∈ scansOf db cid, s.scanned_at = m) ∧
        ∀ s ∈ scansOf db cid, m ≤ s.scanned_at) ∧
      (∀ m, (getScanSummaryByCampaign db cid).last_scan = some m →
        (∃ s ∈ scansOf db cid, s.scanned_at = m) ∧
        ∀ s ∈ scansOf db cid, s.scanned_at ≤ m) ∧
      (getScanSummaryByCampaign db cid).geo_points =
        (scansOf db cid).map (fun s =>
          { lat := s.lat, lon := s.lon, city := s.city, suburb := s.suburb,
            region := s.region }) ∧
      (∀ temps, temps = (scansOf db cid).filterMap
          (fun s => s.weather.bind (fun w => w.temp)) →
        temps ≠ [] →
        (getScanSummaryByCampaign db cid).avg_temp =
          some (temps.sum / (temps.length : ℚ))) := by
  intro db cid
  refine ⟨rfl, ?_, ?_, ?_, ?_, ?_, ?_, ?_, ?_, ?_, ?_, ?_, ?_, ?_, ?_, ?_, ?_,
    rfl, ?_⟩
  · show (scansOf db cid).countP (fun s => s.converted_order_id.isSome) = _
    rw [List.countP_eq_length_filter]
    congr 1
    apply List.filter_congr
    intro s _
    cases s.converted_order_id <;> simp
  · intro hall
    show (scansOf db cid).countP (fun s => s.converted_order_id.isSome) = 0
    rw [List.countP_eq_zero]
    intro s hsm
    simp [hall s hsm]
  · intro v
    show v ∈ ((scansOf db cid).map (fun s => s.city)).dedup ↔ _
    rw [List.mem_dedup, List.mem_map]
  · exact List.nodup_dedup _
  · intro v
    show v ∈ ((scansOf db cid).map (fun s => s.region)).dedup ↔ _
    rw [List.mem_dedup, List.mem_map]
  · exact List.nodup_dedup _
  · intro v
    show v ∈ ((scansOf db cid).map (fun s => s.device_type)).dedup ↔ _
    rw [List.mem_dedup, List.mem_map]
  · exact List.nodup_dedup _
  · intro v
    show v ∈ ((scansOf db cid).map (fun s => s.scan_source)).dedup ↔ _
    rw [List.mem_dedup, List.mem_map]
  · exact List.nodup_dedup _
  · intro v
    show v ∈ ((scansOf db cid).map (fun s => s.referrer)).dedup ↔ _
    rw [List.mem_dedup, List.mem_map]
  · exact List.nodup_dedup _
  · intro v
    show v ∈ ((scansOf db cid).map
        (fun s => s.weather.bind (fun w => w.condition))).dedup ↔ _
    rw [List.mem_dedup, List.mem_map]
  · show listMinI ((scansOf db cid).map (fun s => s.scanned_at)) = none ↔ _
    rw [listMinI_eq_none_iff, List.map_eq_nil_iff]
  · intro m hm
    have hm2 : listMinI ((scansOf db cid).map (fun s => s.scanned_at)) =
      some m := hm
    constructor
    · obtain ⟨s, hs, hv⟩ := List.mem_map.mp (listMinI_mem _ m hm2)
      exact ⟨s, hs, hv⟩
    · intro s hs
      exact listMinI_le _ m hm2 s.scanned_at (List.mem_map.mpr ⟨s, hs, rfl⟩)
  · intro m hm
    have hm2 : listMaxI ((scansOf db cid).map (fun s => s.scanned_at)) =
      some m := hm
    constructor
    · obtain ⟨s, hs, hv⟩ := List.mem_map.mp (listMaxI_mem _ m hm2)
      exact ⟨s, hs, hv⟩
    · intro s hs
      exact listMaxI_ge _ m hm2 s.scanned_at (List.mem_map.mpr ⟨s, hs, rfl⟩)
  · intro temps htemps hne
    show ratAvg ((scansOf db cid).filterMap
      (fun s => s.weather.bind (fun w => w.temp))) = _
    rw [← htemps]
    cases temps with
    | nil => exact absurd rfl hne
    | cons x rest => rfl

/-- Two scans of campaign `c`, neither converted, and one converted scan of
campaign `d`. -/
def scanRowsDemo : List ScanRow :=
  [{ campaign_id := "c", scanned_at := 100, lat := -41, lon := 174,
     city := some "Wellington", suburb := some "Te Aro",
     region := some "Wellington",
     weather := some
       { temp := some 12, feels_like := none, humidity := none,
         wind_speed := none, condition := some "Cloudy", description := none },
     distance_to_store_m := none, nearest_poi := none, distance_to_poi_m := none,
     user_agent := none, converted_order_id := none,
     device_type := some "mobile", referrer := none, scan_source := some "QR" },
   { campaign_id := "c", scanned_at := 200, lat := -41, lon := 174,
     city := some "Wellington", suburb := none, region := some "Wellington",
     weather := none, distance_to_store_m := none, nearest_poi := none,
     distance_to_poi_m := none, user_agent := none, converted_order_id := none,
     device_type := some "desktop", referrer := none,
     scan_source := some "QR" },
   { campaign_id := "d", scanned_at := 300, lat := -36, lon := 174,
     city := some "Auckland", suburb := none, region := some "Auckland",
     weather := none, distance_to_store_m := none, nearest_poi := none,
     distance_to_poi_m := none, user_agent := none,
     converted_order_id := some "order9", device_type := some "mobile",
     referrer := none, scan_source := some "QR" }]

/-- Witness for C8: a campaign with zero converted scans reports a conversion
count of 0, not an error. -/
theorem scan_summary_by_campaign_reports_aggregates_witness :
    (getScanSummaryByCampaign scanRowsDemo "c").conversions = 0 :=
  (scan_summary_by_campaign_reports_aggregates scanRowsDemo "c").2.2.1
    (by decide)

-- -------- C7 and C10: QR asset endpoint and short-link resolver --------

/-- `models.getCampaignById`: `SELECT * FROM campaigns WHERE id=$1`, first
row. -/
def getCampaignById (db : List Campaign) (id : String) : Option Campaign :=
  (db.filter (fun c => c.id == id)).head?

/-- `models.getCampaignByIdentifier`: exact, case-sensitive equality on
`qr_code_identifier`, first row. -/
def getCampaignByIdentifier (db : List Campaign) (ident : String) :
    Option Campaign :=
  (db.filter (fun c => c.qr_code_identifier == ident)).head?

/-- Outcome of `GET /w/:identifier`. -/
inductive ResolveResult where
  | notFound
  | redirect (loc : String)
deriving DecidableEq

/-- The `GET /w/:identifier` handler: 404 when the identifier matches no
campaign, otherwise a 302 redirect to the frontend product page. -/
def getW (frontendUrl : String) (db : List Campaign) (ident : String) :
    ResolveResult :=
  match getCampaignByIdentifier db ident with
  | none => ResolveResult.notFound
  | some c => ResolveResult.redirect (frontendUrl ++ "/products/" ++ c.product_id)

/-- Responses the QR image handler can write, in the order written. -/
inductive QrAction where
  | notFound404
  | svgSend (svg : String)
  | err500 (msg : String)
  | pngSend (png : String)
deriving DecidableEq

/-- QR encoder invocations, with the URL handed to the encoder. -/
inductive QrGenEffect where
  | svgEncode (url : String)
  | pngEncode (url : String)
deriving DecidableEq

/-- The URL a generator invocation encodes. -/
def qrEffectUrl : QrGenEffect → String
  | QrGenEffect.svgEncode u => u
  | QrGenEffect.pngEncode u => u

/-- The `GET /qrcode/:campaignId` handler.  Both generators receive the same
`targetUrl = BASE_URL + "/w/" + qr_code_identifier`.  When `format=svg` and
the SVG generator throws, the catch block sends a 500 response but does not
return, so execution falls through into the PNG block on the same response;
any format other than `svg` takes the PNG branch directly. -/
def qrcodeHandler (baseUrl : String) (db : List Campaign) (campaignId : String)
    (format : Option String)
    (svgGen : String → Except Unit String)
    (pngGen : String → Except Unit String) :
    List QrAction × List QrGenEffect :=
  match getCampaignById db campaignId with
  | none => ([QrAction.notFound404], [])
  | some c =>
    let targetUrl := baseUrl ++ "/w/" ++ c.qr_code_identifier
    if format == some "svg" then
      match svgGen targetUrl with
      | Except.ok svg =>
        ([QrAction.svgSend svg], [QrGenEffect.svgEncode targetUrl])
      | Except.error _ =>
        match pngGen targetUrl with
        | Except.ok png =>
          ([QrAction.err500 "SVG generation failed", QrAction.pngSend png],
           [QrGenEffect.svgEncode targetUrl, QrGenEffect.pngEncode targetUrl])
        | Except.error _ =>
          ([QrAction.err500 "SVG generation failed",
            QrAction.err500 "PNG generation failed"],
           [QrGenEffect.svgEncode targetUrl, QrGenEffect.pngEncode targetUrl])
    else
      match pngGen targetUrl with
      | Except.ok png =>
        ([QrAction.pngSend png], [QrGenEffect.pngEncode targetUrl])
      | Except.error _ =>
        ([QrAction.err500 "PNG generation failed"],
         [QrGenEffect.pngEncode targetUrl])

lemma head_filter_of_mem {α : Type} (p : α → Bool) (l : List α) (a : α)
    (hmem : a ∈ l) (hpa : p a = true)
    (huniq : ∀ x ∈ l, p x = true → x = a) :
    (l.filter p).head? = some a := by
  induction l with
  | nil => simp at hmem
  | cons x t ih =>
    rcases List.mem_cons.mp hmem with rfl | hmt
    · simp [List.filter_cons, hpa]
    · by_cases hpx : p x = true
      · have hxa : x = a := huniq x (List.mem_cons_self x t) hpx
        subst hxa
        simp [List.filter_cons, hpx]
      · rw [List.filter_cons, if_neg (by simpa using hpx)]
        exact ih hmt (fun y hy hpy => huniq y (List.mem_cons_of_mem x hy) hpy)

lemma getCampaignById_of_mem (db : List Campaign) (c : Campaign)
    (hmem : c ∈ db) (hnd : (db.map (fun x => x.id)).Nodup) :
    getCampaignById db c.id = some c := by
  unfold getCampaignById
  apply head_filter_of_mem _ _ _ hmem (by simp)
  intro x hx hpx
  exact List.inj_on_of_nodup_map hnd hx hmem (by simpa using hpx)

lemma getCampaignByIdentifier_of_mem (db : List Campaign) (c : Campaign)
    (hmem : c ∈ db)
    (hnd : (db.map (fun x => x.qr_code_identifier)).Nodup) :
    getCampaignByIdentifier db c.qr_code_identifier = some c := by
  unfold getCampaignByIdentifier
  apply head_filter_of_mem _ _ _ hmem (by simp)
  intro x hx hpx
  exact List.inj_on_of_nodup_map hnd hx hmem (by simpa using hpx)

lemma getCampaignByIdentifier_of_absent (db : List Campaign) (ident : String)
    (h : ∀ c ∈ db, c.qr_code_identifier ≠ ident) :
    getCampaignByIdentifier db ident = none := by
  unfold getCampaignByIdentifier
  rw [List.filter_eq_nil_iff.mpr (fun c hc => by simpa using h c hc)]
  rfl

/-- C7: for an existing campaign (ids and identifiers unique, as the schema's
primary key and unique index guarantee), every encoder invocation of the QR
image endpoint — whichever format is requested — encodes exactly
`{base}/w/{code_identifier}`, and at least one invocation happens; resolving
that identifier through `GET /w/` redirects to
`{frontend}/products/{product_id}` for that campaign's product; and any
identifier that matches no stored campaign under exact, case-sensitive string
equality resolves to 404. -/
theorem qr_roundtrip :
    ∀ (baseUrl frontendUrl : String) (db : List Campaign) (c : Campaign)
      (format : Option String) (svgGen pngGen : String → Except Unit String),
      c ∈ db →
      (db.map (fun x => x.id)).Nodup →
      (db.map (fun x => x.qr_code_identifier)).Nodup →
      ((∀ e ∈ (qrcodeHandler baseUrl db c.id format svgGen pngGen).2,
          qrEffectUrl e = baseUrl ++ "/w/" ++ c.qr_code_identifier) ∧
        (qrcodeHandler baseUrl db c.id format svgGen pngGen).2 ≠ [] ∧
        getW frontendUrl db c.qr_code_identifier =
          ResolveResult.redirect
            (frontendUrl ++ "/products/" ++ c.product_id) ∧
        (∀ ident, (∀ c2 ∈ db, c2.qr_code_identifier ≠ ident) →
          getW frontendUrl db ident = ResolveResult.notFound)) := by
  intro baseUrl frontendUrl db c format svgGen pngGen hmem hndid hndident
  have hbyid := getCampaignById_of_mem db c hmem hndid
  refine ⟨?_, ?_, ?_, ?_⟩
  · intro e he
    unfold qrcodeHandler at he
    rw [hbyid] at he
    dsimp only at he
    by_cases hf : (format == some "svg") = true
    · rw [if_pos hf] at he
      cases hsvg : svgGen (baseUrl ++ "/w/" ++ c.qr_code_identifier) with
      | ok svg =>
        rw [hsvg] at he
        simp only [List.mem_singleton] at he
        subst he
        rfl
      | error u =>
        rw [hsvg] at he
        cases hpng : pngGen (baseUrl ++ "/w/" ++ c.qr_code_identifier) with
        | ok png =>
          rw [hpng] at he
          rcases List.mem_cons.mp he with rfl | he2
          · rfl
          · simp only [List.mem_singleton] at he2
            subst he2
            rfl
        | error u2 =>
          rw [hpng] at he
          rcases List.mem_cons.mp he with rfl | he2
          · rfl
          · simp only [List.mem_singleton] at he2
            subst he2
            rfl
    · rw [if_neg hf] at he
      cases hpng : pngGen (baseUrl ++ "/w/" ++ c.qr_code_identifier) with
      | ok png =>
        rw [hpng] at he
        simp only [List.mem_singleton] at he
        subst he
        rfl
      | error u =>
        rw [hpng] at he
        simp only [List.mem_singleton] at he
        subst he
        rfl
  · unfold qrcodeHandler
    rw [hbyid]
    dsimp only
    by_cases hf : (format == some "svg") = true
    · rw [if_pos hf]
      cases hsvg : svgGen (baseUrl ++ "/w/" ++ c.qr_code_identifier) with
      | ok svg => simp
      | error u =>
        cases hpng : pngGen (baseUrl ++ "/w/" ++ c.qr_code_identifier) with
        | ok png => simp
        | error u2 => simp
    · rw [if_neg hf]
      cases hpng : pngGen (baseUrl ++ "/w/" ++ c.qr_code_identifier) with
      | ok png => simp
      | error u => simp
  · unfold getW
    rw [getCampaignByIdentifier_of_mem db c hmem hndident]
  · intro ident hab
    unfold getW
    rw [getCampaignByIdentifier_of_absent db ident hab]

/-- A one-campaign store used by the QR witnesses. -/
def campaignDemo : Campaign :=
  { id := "c1", retailer_id := "r1", product_id := "p1",
    campaign_name := "Demo", start_date := none, end_date := none,
    qr_code_identifier := "Summer2025", commission_percent := some 10,
    location := none }

/-- Witness for C7 at a concrete store: the PNG branch encodes
`{base}/w/Summer2025`, resolving `Summer2025` redirects to the product page,
and the case-variant `summer2025` resolves to 404. -/
theorem qr_roundtrip_witness :
    getW "https://front" [campaignDemo] "Summer2025" =
      ResolveResult.redirect "https://front/products/p1" ∧
    getW "https://front" [campaignDemo] "summer2025" =
      ResolveResult.notFound := by
  have h := qr_roundtrip "https://base" "https://front" [campaignDemo]
    campaignDemo none (fun u => Except.ok u) (fun u => Except.ok u)
    (by simp) (by simp) (by simp)
  exact ⟨h.2.2.1, h.2.2.2 "summer2025" (by decide)⟩

/-- C10: when the campaign exists, `format=svg` is requested, SVG generation
throws and PNG generation succeeds, the handler sends the 500 error response
and then also the PNG bytes on the same response, having invoked both
encoders; and for every format other than `svg` (including an omitted one)
only the raster branch runs. -/
theorem qrcode_svg_error_falls_through_to_png :
    ∀ (baseUrl : String) (db : List Campaign) (campaignId : String)
      (c : Campaign) (png : String)
      (svgGen pngGen : String → Except Unit String),
      getCampaignById db campaignId = some c →
      svgGen (baseUrl ++ "/w/" ++ c.qr_code_identifier) = Except.error () →
      pngGen (baseUrl ++ "/w/" ++ c.qr_code_identifier) = Except.ok png →
      ((qrcodeHandler baseUrl db campaignId (some "svg") svgGen pngGen).1 =
          [QrAction.err500 "SVG generation failed", QrAction.pngSend png] ∧
        (qrcodeHandler baseUrl db campaignId (some "svg") svgGen pngGen).2 =
          [QrGenEffect.svgEncode (baseUrl ++ "/w/" ++ c.qr_code_identifier),
           QrGenEffect.pngEncode (baseUrl ++ "/w/" ++ c.qr_code_identifier)] ∧
        (∀ format, format ≠ some "svg" →
          (qrcodeHandler baseUrl db campaignId format svgGen pngGen).1 =
            [QrAction.pngSend png] ∧
          (qrcodeHandler baseUrl db campaignId format svgGen pngGen).2 =
            [QrGenEffect.pngEncode
              (baseUrl ++ "/w/" ++ c.qr_code_identifier)])) := by
  intro baseUrl db campaignId c png svgGen pngGen hbyid hsvg hpng
  refine ⟨?_, ?_, ?_⟩
  · unfold qrcodeHandler
    rw [hbyid]
    dsimp only
    rw [if_pos (by simp), hsvg, hpng]
  · unfold qrcodeHandler
    rw [hbyid]
    dsimp only
    rw [if_pos (by simp), hsvg, hpng]
  · intro format hf
    have hfb : (format == some "svg") = false := by
      cases format with
      | none => rfl
      | some f => simpa using fun he => hf (by rw [he])
    constructor
    · unfold qrcodeHandler
      rw [hbyid]
      dsimp only
      rw [if_neg (by simp [hfb]), hpng]
    · unfold qrcodeHandler
      rw [hbyid]
      dsimp only
      rw [if_neg (by simp [hfb]), hpng]

/-- Witness for C10 at a concrete store: the response stream carries the 500
and then the PNG bytes. -/
theorem qrcode_svg_error_falls_through_to_png_witness :
    (qrcodeHandler "https://base" [campaignDemo] "c1" (some "svg")
        (fun _ => Except.error ()) (fun _ => Except.ok "PNGBYTES")).1 =
      [QrAction.err500 "SVG generation failed", QrAction.pngSend "PNGBYTES"] ∧
    (qrcodeHandler "https://base" [campaignDemo] "c1" none
        (fun _ => Except.error ()) (fun _ => Except.ok "PNGBYTES")).1 =
      [QrAction.pngSend "PNGBYTES"] := by
  have h := qrcode_svg_error_falls_through_to_png "https://base"
    [campaignDemo] "c1" campaignDemo "PNGBYTES"
    (fun _ => Except.error ()) (fun _ => Except.ok "PNGBYTES")
    (by decide) rfl rfl
  exact ⟨h.1, (h.2.2 none (by simp)).1⟩

-- -------- C1: orders and payouts (models.js createOrder / createPayout) ----

/-- A stored order row (orders table of `seed.js`). -/
structure Order where
  id : String
  customer_id : String
  product_id : String
  campaign_id : Option String
  quantity : Int
  total_amount : ℚ
  commission_amount : ℚ
  shipping_address : String
deriving DecidableEq

/-- The closed set of payout types (`CHECK(type IN ...)` in the schema). -/
inductive PayoutType where
  | advertiser_commission
  | distributor_revenue
deriving DecidableEq

/-- A stored payout row. -/
structure Payout where
  id : String
  recipient_id : String
  order_id : String
  amount : ℚ
  ptype : PayoutType
deriving DecidableEq

/-- The stored state the ledger claims range over. -/
structure AppState where
  campaigns : List Campaign
  orders : List Order
  payouts : List Payout
deriving DecidableEq

/-- `POST /orders` via `models.createOrder`: the row is inserted exactly as
given; no payout is computed or emitted. -/
def createOrder (st : AppState) (o : Order) : AppState :=
  { st with orders := st.orders ++ [o] }

/-- `POST /payouts` via `models.createPayout`: the payout row is inserted
exactly as the client sent it; no amount is derived from the order or the
campaign's commission rate. -/
def createPayout (st : AppState) (p : Payout) : AppState :=
  { st with payouts := st.payouts ++ [p] }

/-- The payout rows recorded for one order. -/
def payoutsForOrder (st : AppState) (oid : String) : List Payout :=
  st.payouts.filter (fun p => p.order_id == oid)

/-- Half-up rounding to the currency's minor unit, as the specification
defines the commission computation. -/
def roundHalfUpCents (q : ℚ) : ℚ :=
  ((Rat.floor (q * 100 + 1 / 2) : ℚ)) / 100

/-- The campaign `camp1` with a 10 percent commission rate. -/
def campOrder : Campaign :=
  { id := "camp1", retailer_id := "ret1", product_id := "prod1",
    campaign_name := "Campaign One", start_date := none, end_date := none,
    qr_code_identifier := "summer2025", commission_percent := some 10,
    location := none }

/-- An order of 100.00 attributed to `camp1`. -/
def orderWithCampaign : Order :=
  { id := "order1", customer_id := "cust1", product_id := "prod1",
    campaign_id := some "camp1", quantity := 1, total_amount := 100,
    commission_amount := 10, shipping_address := "123 Queen St, Wellington" }

/-- An order of 50.00 with no campaign reference. -/
def orderNoCampaign : Order :=
  { id := "order2", customer_id := "cust2", product_id := "prod2",
    campaign_id := none, quantity := 1, total_amount := 50,
    commission_amount := 0, shipping_address := "456 K Road, Auckland" }

/-- A client-chosen payout of 5.00 posted against `order1`. -/
def payoutClientChosen : Payout :=
  { id := "pay1", recipient_id := "adv1", order_id := "order1", amount := 5,
    ptype := PayoutType.advertiser_commission }

/-- The state reached by creating both orders and posting the single
client-chosen payout. -/
def ledgerStateReached : AppState :=
  createPayout
    (createOrder
      (createOrder { campaigns := [campOrder], orders := [], payouts := [] }
        orderWithCampaign)
      orderNoCampaign)
    payoutClientChosen

/-- C1: the payout-conservation invariant fails on a state the code reaches.
Order creation emits no payouts and `POST /payouts` records whatever the
client sends, so the payouts recorded for the campaign-attributed order sum to
5, not its total of 100; the advertiser-commission payout is 5, not
`round(100 * 10 / 100) = 10`; and the campaign-less order has no payout at
all instead of exactly one revenue payout for its full amount. -/
theorem payout_conservation_violated_by_code :
    orderWithCampaign ∈ ledgerStateReached.orders ∧
    orderWithCampaign.campaign_id = some campOrder.id ∧
    campOrder ∈ ledgerStateReached.campaigns ∧
    campOrder.commission_percent = some 10 ∧
    ((payoutsForOrder ledgerStateReached orderWithCampaign.id).map
        (fun p => p.amount)).sum = 5 ∧
    orderWithCampaign.total_amount = 100 ∧
    ¬ (((payoutsForOrder ledgerStateReached orderWithCampaign.id).map
        (fun p => p.amount)).sum = orderWithCampaign.total_amount) ∧
    roundHalfUpCents (orderWithCampaign.total_amount * 10 / 100) = 10 ∧
    ((payoutsForOrder ledgerStateReached orderWithCampaign.id).filter
        (fun p => p.ptype == PayoutType.advertiser_commission)).map
      (fun p => p.amount) = [5] ∧
    orderNoCampaign ∈ ledgerStateReached.orders ∧
    orderNoCampaign.campaign_id = none ∧
    payoutsForOrder ledgerStateReached orderNoCampaign.id = [] := by
  have hpay : payoutsForOrder ledgerStateReached orderWithCampaign.id =
      [payoutClientChosen] := by
    simp [payoutsForOrder, ledgerStateReached, createPayout, createOrder,
      payoutClientChosen, orderWithCampaign]
  have hfloor : roundHalfUpCents (orderWithCampaign.total_amount * 10 / 100)
      = 10 := by
    have harg : (orderWithCampaign.total_amount * 10 / 100 * 100 + 1 / 2 : ℚ)
        = ((2001 : ℤ) : ℚ) / ((2 : ℕ) : ℚ) := by
      norm_num [orderWithCampaign]
    rw [roundHalfUpCents, harg]
    rw [show Rat.floor (((2001 : ℤ) : ℚ) / ((2 : ℕ) : ℚ)) =
      ⌊((2001 : ℤ) : ℚ) / ((2 : ℕ) : ℚ)⌋ from rfl]
    rw [Rat.floor_intCast_div_natCast]
    norm_num
  refine ⟨?_, rfl, ?_, rfl, ?_, rfl, ?_, hfloor, ?_, ?_, rfl, ?_⟩
  · simp [ledgerStateReached, createPayout, createOrder]
  · simp [ledgerStateReached, createPayout, createOrder]
  · rw [hpay]
    simp [payoutClientChosen]
  · rw [hpay]
    simp [payoutClientChosen, orderWithCampaign]
  · rw [hpay]
    simp [payoutClientChosen]
  · simp [ledgerStateReached, createPayout, createOrder]
  · simp [payoutsForOrder, ledgerStateReached, createPayout, createOrder,
      payoutClientChosen, orderNoCampaign]

end GlassCart
